import Mathlib

/-
Verification of the glacier wildfire albedo analysis repository.

Shallow embedding conventions:
* Floating point series are modelled over the rationals; a NaN entry of a
  numpy array or pandas series is modelled as `none` in `Option ℚ`.
* The scipy and statsmodels numeric kernels (`stats.pearsonr`,
  `stats.spearmanr`, `stats.kendalltau`, `sm.OLS`) and the numpy
  transcendental functions (`arctanh`, `tanh`, `sqrt`) are opaque to the
  control flow under verification, so they are parameters of the embedding,
  collected in `NumEnv`.
* Fallible Python code is embedded in `Except String`; a raised exception is
  an `Except.error`.
-/

namespace GlacierAlbedo

/-- Numeric kernels used by `src/utils/statistics.py`; these library calls are
treated as opaque parameters of the embedding. `ols` returns
(slope, intercept, r_squared, p_value of the slope). -/
structure NumEnv where
  pearsonr : List ℚ → List ℚ → ℚ × ℚ
  spearmanr : List ℚ → List ℚ → ℚ × ℚ
  kendalltau : List ℚ → List ℚ → ℚ × ℚ
  arctanh : ℚ → ℚ
  tanh : ℚ → ℚ
  sqrt : ℚ → ℚ
  ols : List ℚ → List ℚ → ℚ × ℚ × ℚ × ℚ

/-- Correlation method accepted by `calculate_correlation`; `other` covers any
unsupported method string, which the Python code rejects with `ValueError`. -/
inductive Method where
  | pearson
  | spearman
  | kendall
  | other (s : String)
deriving DecidableEq

/-- Result dictionary of `calculate_correlation`. For `correlation`,
`p_value`, `ci_lower`, `ci_upper` the value `none` models `np.nan`. For
`n_observations`, `none` models the key being absent from the returned dict,
which is the case in the insufficient-sample early return. -/
structure CorrResult where
  correlation : Option ℚ
  p_value : Option ℚ
  ci_lower : Option ℚ
  ci_upper : Option ℚ
  n_observations : Option ℕ
deriving DecidableEq

/-- Embeds `mask = ~(np.isnan(x) | np.isnan(y)); x_clean = x[mask];
y_clean = y[mask]` from `calculate_correlation`: the list of index positions
where both series carry a value. -/
def cleanPairs (x y : List (Option ℚ)) : List (ℚ × ℚ) :=
  (x.zip y).filterMap fun ab =>
    match ab with
    | (some a, some b) => some (a, b)
    | _ => none

/-- Embeds the tail of `calculate_correlation` once `corr, p_value` have been
obtained from the scipy kernel: the 95 percent Fisher confidence interval is
attached only for the pearson method with more than 3 clean observations. -/
def corrResultFrom (env : NumEnv) (method : Method) (n : ℕ) (corr pValue : ℚ) :
    CorrResult :=
  if method = Method.pearson ∧ 3 < n then
    let z := env.arctanh corr
    let se := 1 / env.sqrt ((n : ℚ) - 3)
    { correlation := some corr, p_value := some pValue,
      ci_lower := some (env.tanh (z - 196 / 100 * se)),
      ci_upper := some (env.tanh (z + 196 / 100 * se)),
      n_observations := some n }
  else
    { correlation := some corr, p_value := some pValue,
      ci_lower := none, ci_upper := none, n_observations := some n }

/-- Embeds `calculate_correlation` of `src/utils/statistics.py`. NaN positions
are dropped, fewer than 3 clean pairs yield the NaN marker dictionary (which
omits the `n_observations` key), an unsupported method raises `ValueError`,
and otherwise the scipy kernel result is packaged with the optional Fisher
confidence interval. -/
def calculate_correlation (env : NumEnv) (x y : List (Option ℚ))
    (method : Method) : Except String CorrResult :=
  let pairs := cleanPairs x y
  let xClean := pairs.map Prod.fst
  let yClean := pairs.map Prod.snd
  if xClean.length < 3 then
    Except.ok { correlation := none, p_value := none, ci_lower := none,
                ci_upper := none, n_observations := none }
  else
    match method with
    | Method.pearson =>
        let cp := env.pearsonr xClean yClean
        Except.ok (corrResultFrom env Method.pearson xClean.length cp.1 cp.2)
    | Method.spearman =>
        let cp := env.spearmanr xClean yClean
        Except.ok (corrResultFrom env Method.spearman xClean.length cp.1 cp.2)
    | Method.kendall =>
        let cp := env.kendalltau xClean yClean
        Except.ok (corrResultFrom env Method.kendall xClean.length cp.1 cp.2)
    | Method.other s =>
        Except.error ("Méthode " ++ s ++ " non supportée")

/-- Dummy numeric environment used to instantiate witnesses and
counterexamples on concrete inputs. -/
def zeroEnv : NumEnv :=
  { pearsonr := fun _ _ => (0, 0), spearmanr := fun _ _ => (0, 0),
    kendalltau := fun _ _ => (0, 0), arctanh := fun _ => 0,
    tanh := fun _ => 0, sqrt := fun _ => 0, ols := fun _ _ => (0, 0, 0, 0) }

/-- Method parameter of `compute_lag_analysis`. -/
inductive LagMethod where
  | correlation
  | regression
deriving DecidableEq

/-- Row appended by the `correlation` branch of `compute_lag_analysis`. -/
structure CorrLagRow where
  lag : ℕ
  correlation : Option ℚ
  p_value : Option ℚ
  n_obs : ℕ
deriving DecidableEq

/-- Row appended by the `regression` branch of `compute_lag_analysis`. -/
structure RegLagRow where
  lag : ℕ
  slope : ℚ
  intercept : ℚ
  r_squared : ℚ
  p_value : ℚ
  n_obs : ℕ
deriving DecidableEq

/-- Row of the DataFrame assembled by `compute_lag_analysis`. -/
inductive LagEntry where
  | corr (row : CorrLagRow)
  | reg (row : RegLagRow)
deriving DecidableEq

/-- Embeds the shift `x_lagged = x[:-lag]; y_current = y[lag:]` (and the
unshifted pair at lag 0) from `compute_lag_analysis`. -/
def lagSlice (x y : List (Option ℚ)) (lag : ℕ) :
    List (Option ℚ) × List (Option ℚ) :=
  if lag = 0 then (x, y) else (x.take (x.length - lag), y.drop lag)

/-- Embeds the row construction of the correlation branch of
`compute_lag_analysis`: the Python code reads `result['n_observations']`;
when `calculate_correlation` took its insufficient-sample early return that
key is absent and the access raises `KeyError`. -/
def corrRowFrom (lag : ℕ) (result : CorrResult) : Except String (List LagEntry) :=
  match result.n_observations with
  | none => Except.error "KeyError: n_observations"
  | some n =>
      Except.ok [LagEntry.corr
        { lag := lag, correlation := result.correlation,
          p_value := result.p_value, n_obs := n }]

/-- Embeds one iteration of the `for lag in range(0, max_lag + 1)` loop of
`compute_lag_analysis`. The regression branch appends no row when at most 2
clean pairs remain. -/
def lagStep (env : NumEnv) (x y : List (Option ℚ)) (method : LagMethod)
    (lag : ℕ) : Except String (List LagEntry) :=
  let xLagged := (lagSlice x y lag).1
  let yCurrent := (lagSlice x y lag).2
  match method with
  | LagMethod.correlation =>
      Except.bind (calculate_correlation env xLagged yCurrent Method.pearson)
        (corrRowFrom lag)
  | LagMethod.regression =>
      let pairs := cleanPairs xLagged yCurrent
      if 2 < pairs.length then
        let r := env.ols (pairs.map Prod.fst) (pairs.map Prod.snd)
        Except.ok [LagEntry.reg
          { lag := lag, slope := r.1, intercept := r.2.1,
            r_squared := r.2.2.1, p_value := r.2.2.2, n_obs := pairs.length }]
      else
        Except.ok []

/-- Embeds `compute_lag_analysis` of `src/utils/statistics.py`: the rows
collected over lags 0..max_lag; an exception in any iteration aborts the whole
call. -/
def compute_lag_analysis (env : NumEnv) (x y : List (Option ℚ))
    (maxLag : ℕ) (method : LagMethod) : Except String (List LagEntry) := do
  let rows ← (List.range (maxLag + 1)).mapM (lagStep env x y method)
  pure rows.flatten

/-- Glacier polygon as registered in `create_glacier_regions_mask`: the RGIId
name together with the point-in-polygon test of its outline geometry (the
shapely containment predicate is opaque to the code under verification, so it
is carried as a function). -/
structure GlacierPoly where
  rgiId : String
  contains : ℚ × ℚ → Bool

instance : Inhabited GlacierPoly :=
  ⟨⟨"", fun _ => false⟩⟩

/-- Indices (the `numbers=list(range(len(self.glaciers)))` of
`create_glacier_regions_mask`) of the registered polygons containing a grid
point. -/
def containingIdx (gs : List GlacierPoly) (pt : ℚ × ℚ) : List ℕ :=
  (List.range gs.length).filter fun i => (gs.getD i default).contains pt

/-- Value of one cell of `regionmask.Regions(...).mask(lons, lats)`: the
rasterisation burns the outlines in registration order and a later polygon
overwrites an earlier one on a shared cell, so a cell holds the number of the
last registered polygon containing it, and NaN (here `none`) when no polygon
contains it. -/
def maskAt (gs : List GlacierPoly) (pt : ℚ × ℚ) : Option ℕ :=
  (containingIdx gs pt).getLast?

/-- Embeds `create_glacier_regions_mask`: the label array over the RAQDPS
grid, one row per latitude and one column per longitude. -/
def create_glacier_regions_mask (gs : List GlacierPoly) (lons lats : List ℚ) :
    List (List (Option ℕ)) :=
  lats.map fun la => lons.map fun lo => maskAt gs (lo, la)

/-- Gridded time slice as read from one RAQDPS NetCDF file: a finite map from
variable name to its 2-D field over the grid (row per latitude, column per
longitude). -/
abbrev Slice : Type := List (String × List (List ℚ))

/-- Embeds the membership test `if var in ds` together with the access
`ds[var]`. -/
def lookupVar (ds : Slice) (v : String) : Option (List (List ℚ)) :=
  (ds.find? fun p => p.1 == v).map Prod.snd

/-- Values of the grid cells selected by `mask = (self.mask_array == i)`, the
cells labelled with glacier number i; `ds[var].where(mask)` keeps exactly
these values and turns every other cell into NaN. -/
def cellsOfGlacier (mask : List (List (Option ℕ))) (grid : List (List ℚ))
    (i : ℕ) : List ℚ :=
  (mask.zip grid).flatMap fun rc =>
    (rc.1.zip rc.2).filterMap fun mv =>
      if mv.1 = some i then some mv.2 else none

/-- Embeds `float(ds[var].where(mask).mean())`: the xarray skip-NaN mean of an
all-NaN selection is NaN (`none`). -/
def depMean (cells : List ℚ) : Option ℚ :=
  if cells.isEmpty then none else some (cells.sum / cells.length)

/-- Embeds `float(ds[var].where(mask).sum())`: the xarray skip-NaN sum has
`min_count=0`, so an all-NaN selection sums to 0.0, a plain float — never
NaN. -/
def depSum (cells : List ℚ) : Option ℚ :=
  some cells.sum

/-- Record appended to `results[glacier_id]` for one time slice and one
variable: the keys `time`, `{var}_mean` and `{var}_sum`. -/
structure DepRecord where
  time : ℤ
  var : String
  mean : Option ℚ
  sum : Option ℚ
deriving DecidableEq

/-- Embeds the body of the `with xr.open_dataset(...) as ds` block of
`extract_deposition_timeseries`: for every requested variable present in the
slice and every glacier number, the mean/sum record over the cells labelled
with that glacier. The pair carries the glacier number the record is appended
under. -/
def extractSlice (mask : List (List (Option ℕ))) (ds : Slice) (nGlaciers : ℕ)
    (vars : List String) (t : ℤ) : List (ℕ × DepRecord) :=
  vars.flatMap fun v =>
    match lookupVar ds v with
    | none => []
    | some grid =>
        (List.range nGlaciers).map fun i =>
          (i, { time := t, var := v,
                mean := depMean (cellsOfGlacier mask grid i),
                sum := depSum (cellsOfGlacier mask grid i) })

/-- Hourly timestamps of the analysis window, as produced by
`while current_date <= end_date: ... current_date += timedelta(hours=1)`. -/
def hoursIn (s e : ℤ) : List ℤ :=
  (List.range (e + 1 - s).toNat).map fun k => s + k

/-- Records produced for one timestamp of the loop of
`extract_deposition_timeseries`: a missing file (`FileNotFoundError`) is
logged and contributes nothing. -/
def sliceRecords (fs : ℤ → Option Slice) (mask : List (List (Option ℕ)))
    (nGlaciers : ℕ) (vars : List String) (t : ℤ) : List (ℕ × DepRecord) :=
  match fs t with
  | none => []
  | some ds => extractSlice mask ds nGlaciers vars t

/-- Embeds the date loop of `extract_deposition_timeseries`: all records
appended over the analysis window, in timestamp order. -/
def extract_deposition_timeseries (fs : ℤ → Option Slice)
    (mask : List (List (Option ℕ))) (nGlaciers : ℕ) (vars : List String)
    (s e : ℤ) : List (ℕ × DepRecord) :=
  (hoursIn s e).flatMap (sliceRecords fs mask nGlaciers vars)

/-- Embeds the selected dataset `ds[variables]`: the requested variables of
the slice, in request order; meaningful when every requested variable is
present. An empty request is falsy in `if variables:` and keeps the slice. -/
def selectedSlice (ds : Slice) (vars : List String) : Slice :=
  if vars.isEmpty then ds
  else vars.filterMap fun v => (lookupVar ds v).map fun g => (v, g)

/-- Embeds `if variables: ds = ds[variables]` of `load_raqdps_data`: an empty
variable list is falsy and skips the selection; otherwise the xarray
selection raises `KeyError` as soon as a requested variable is absent from
the opened file. -/
def selectVariables (ds : Slice) (vars : List String) :
    Except String Slice :=
  if vars.isEmpty then Except.ok ds
  else if vars.all fun v => (lookupVar ds v).isSome then
    Except.ok (vars.filterMap fun v =>
      (lookupVar ds v).map fun g => (v, g))
  else
    Except.error "KeyError: variable absente du jeu de données"

/-- Embeds one iteration of the hourly loop of `load_raqdps_data`: a missing
file contributes nothing; an existing file is opened, its variables are
selected (possibly raising `KeyError`), and the dataset is appended. The
`bbox=None` default applies no bounding box; the bbox branch lies outside
every claim. -/
def loadStep (fs : ℤ → Option Slice) (vars : List String)
    (acc : List (ℤ × Slice)) (t : ℤ) : Except String (List (ℤ × Slice)) :=
  match fs t with
  | none => Except.ok acc
  | some ds =>
      match selectVariables ds vars with
      | Except.error err => Except.error err
      | Except.ok d => Except.ok (acc ++ [(t, d)])

/-- Embeds `load_raqdps_data` of `src/utils/data_loaders.py`: the hourly loop
collects the selected datasets of the files that exist; with at least one
collected dataset the function returns `xr.concat(datasets, dim='time')` —
the library concatenation is an opaque parameter carrying its own failure
modes — and with none it raises `ValueError`. A `None` variable argument
becomes the default list BC_dep, PM2.5_dep, PM10_dep before the loop. -/
def load_raqdps_data
    (concat : List (ℤ × Slice) → Except String (List (ℤ × Slice)))
    (fs : ℤ → Option Slice) (vars : List String) (s e : ℤ) :
    Except String (List (ℤ × Slice)) :=
  Except.bind ((hoursIn s e).foldlM (loadStep fs vars) [])
    fun datasets =>
      if datasets.isEmpty then
        Except.error "Aucune donnée trouvée pour la période spécifiée"
      else concat datasets

/-- Slice of a file carrying only the PM10 deposition field — a file that
exists but lacks the default-requested BC_dep and PM2.5_dep variables. -/
def pm10OnlySlice : Slice := [("PM10_dep", [[1]])]

/-- Slice of a file carrying all three default-requested variables. -/
def completeSlice : Slice :=
  [("BC_dep", [[1]]), ("PM2.5_dep", [[1]]), ("PM10_dep", [[1]])]

/-- Row of the RGI GeoDataFrame as used by `filter_glaciers_by_criteria`. -/
structure GlacierRow where
  RGIId : String
  Area : ℚ
  Zmed : ℚ
deriving DecidableEq

/-- Python truthiness of the optional float `max_elevation` as tested by
`if max_elevation:` — `None` and `0.0` are both falsy. -/
def truthyOpt (q : Option ℚ) : Bool :=
  match q with
  | none => false
  | some v => decide (v ≠ 0)

/-- Embeds `filter_glaciers_by_criteria` of `src/rgi_analysis.py`: keep the
rows with `Area >= min_area`, then, only when `max_elevation` is truthy, the
rows with `Zmed <= max_elevation`. -/
def filter_glaciers_by_criteria (gs : List GlacierRow) (min_area : ℚ)
    (max_elevation : Option ℚ) : List GlacierRow :=
  let gs1 := gs.filter fun g => decide (min_area ≤ g.Area)
  if truthyOpt max_elevation then
    gs1.filter fun g => decide (g.Zmed ≤ max_elevation.getD 0)
  else
    gs1

/-- Embeds the pandas time-based rolling sum `series.rolling(window).sum()`
over a chronologically indexed series: at each row i, the sum of the values
of the rows up to i whose timestamp lies in the left-open, right-closed
wall-clock window (t_i - window, t_i]. Timestamps are in hours. -/
def rollingWindowSum (window : ℤ) (rows : List (ℤ × ℚ)) : List ℚ :=
  (List.range rows.length).map fun i =>
    ((((rows.take (i + 1)).filter fun p =>
        decide ((rows.getD i (0, 0)).1 - window < p.1)).map Prod.snd)).sum

/-- Embeds the derived column
`df[f'{var}_cumul_24h'] = df[f'{var}_sum'].rolling('24H').sum()` of
`analyze_period` in `src/athabasca_glacier.py`. -/
def cumul24h (rows : List (ℤ × ℚ)) : List ℚ :=
  rollingWindowSum 24 rows

/-- Hourly, gap-free observation series with constant per-observation value
v, starting at hour 0. -/
def hourlyConst (n : ℕ) (v : ℚ) : List (ℤ × ℚ) :=
  (List.range n).map fun k : ℕ => ((k : ℤ), v)

/-- Row of the cross-glacier summary DataFrame as consumed by the ranking
`summary.nlargest(10, 'BC_total')` in the `__main__` block of
`src/rgi_analysis.py` and in `scripts/process_raqdps.py`. Identifiers are
modelled as naturals whose order stands for the lexicographic order of the
RGIId strings. -/
structure SummaryRow where
  RGIId : ℕ
  BC_total : ℚ
deriving DecidableEq

/-- Embeds `summary.nlargest(n, 'BC_total')` (pandas default keep='first'):
the first n rows of the stable descending sort by the column — rows with
equal totals keep their original relative order. -/
def nlargestBCTotal (n : ℕ) (rows : List SummaryRow) : List SummaryRow :=
  (rows.mergeSort fun a b => decide (b.BC_total ≤ a.BC_total)).take n

/-- Modelled from the spec: the ranking the specification prescribes — total
deposition descending, ties broken by identifier ascending. -/
def specRanking (rows : List SummaryRow) : List SummaryRow :=
  rows.mergeSort fun a b =>
    decide (b.BC_total < a.BC_total ∨
      (a.BC_total = b.BC_total ∧ a.RGIId ≤ b.RGIId))

/-- Two summary rows with equal totals, the larger identifier registered
first. -/
def demoSummary : List SummaryRow :=
  [{ RGIId := 2, BC_total := 5 }, { RGIId := 1, BC_total := 5 }]

theorem length_cleanPairs_map_fst (x y : List (Option ℚ)) :
    ((cleanPairs x y).map Prod.fst).length = (cleanPairs x y).length :=
  List.length_map _ _

/-- Claim C4: with fewer than 3 paired valid points `calculate_correlation`
returns normally (no exception) with the NaN marker, never zero, for both the
coefficient and the p-value, whatever the method. -/
theorem C4_insufficient_sample (env : NumEnv) (x y : List (Option ℚ))
    (method : Method) (hxy : x.length = y.length)
    (h : (cleanPairs x y).length < 3) :
    calculate_correlation env x y method =
      Except.ok { correlation := none, p_value := none, ci_lower := none,
                  ci_upper := none, n_observations := none } := by
  unfold calculate_correlation
  simp only [length_cleanPairs_map_fst, if_pos h]

/-- Witness for C4 at a concrete input with exactly one valid pair. -/
theorem C4_witness :
    ([some (1 : ℚ), none, some 2].length = [some (1 : ℚ), some 2, none].length) ∧
      (cleanPairs [some 1, none, some 2] [some 1, some 2, none]).length < 3 ∧
      calculate_correlation zeroEnv [some 1, none, some 2]
          [some 1, some 2, none] Method.pearson =
        Except.ok { correlation := none, p_value := none, ci_lower := none,
                    ci_upper := none, n_observations := none } :=
  ⟨rfl, by decide,
    C4_insufficient_sample zeroEnv _ _ Method.pearson rfl (by decide)⟩

theorem corrResultFrom_n (env : NumEnv) (method : Method) (n : ℕ)
    (corr pValue : ℚ) :
    (corrResultFrom env method n corr pValue).n_observations = some n := by
  unfold corrResultFrom
  split <;> rfl

/-- When at least 3 clean pairs are available, `calculate_correlation` with
the pearson method succeeds and reports the kernel output together with the
pair count. -/
theorem calculate_correlation_ok (env : NumEnv) (x y : List (Option ℚ))
    (h : 3 ≤ (cleanPairs x y).length) :
    calculate_correlation env x y Method.pearson =
      Except.ok (corrResultFrom env Method.pearson (cleanPairs x y).length
        (env.pearsonr ((cleanPairs x y).map Prod.fst)
          ((cleanPairs x y).map Prod.snd)).1
        (env.pearsonr ((cleanPairs x y).map Prod.fst)
          ((cleanPairs x y).map Prod.snd)).2) := by
  unfold calculate_correlation
  simp only [length_cleanPairs_map_fst, if_neg (Nat.not_lt.mpr h)]

/-- Companion to `calculate_correlation_ok` for the spearman method. -/
theorem calculate_correlation_spearman_ok (env : NumEnv)
    (x y : List (Option ℚ)) (h : 3 ≤ (cleanPairs x y).length) :
    calculate_correlation env x y Method.spearman =
      Except.ok (corrResultFrom env Method.spearman (cleanPairs x y).length
        (env.spearmanr ((cleanPairs x y).map Prod.fst)
          ((cleanPairs x y).map Prod.snd)).1
        (env.spearmanr ((cleanPairs x y).map Prod.fst)
          ((cleanPairs x y).map Prod.snd)).2) := by
  unfold calculate_correlation
  simp only [length_cleanPairs_map_fst, if_neg (Nat.not_lt.mpr h)]

/-- Companion to `calculate_correlation_ok` for the kendall method. -/
theorem calculate_correlation_kendall_ok (env : NumEnv)
    (x y : List (Option ℚ)) (h : 3 ≤ (cleanPairs x y).length) :
    calculate_correlation env x y Method.kendall =
      Except.ok (corrResultFrom env Method.kendall (cleanPairs x y).length
        (env.kendalltau ((cleanPairs x y).map Prod.fst)
          ((cleanPairs x y).map Prod.snd)).1
        (env.kendalltau ((cleanPairs x y).map Prod.fst)
          ((cleanPairs x y).map Prod.snd)).2) := by
  unfold calculate_correlation
  simp only [length_cleanPairs_map_fst, if_neg (Nat.not_lt.mpr h)]

theorem mapM_ok_of_forall {α β : Type} (f : α → Except String β)
    (l : List α) (h : ∀ a ∈ l, ∃ b, f a = Except.ok b) :
    ∃ bs, l.mapM f = Except.ok bs := by
  induction l with
  | nil => exact ⟨[], rfl⟩
  | cons a l ih =>
      obtain ⟨b, hb⟩ := h a (List.mem_cons_self a l)
      obtain ⟨bs, hbs⟩ := ih fun a ha => h a (List.mem_cons_of_mem _ ha)
      refine ⟨b :: bs, ?_⟩
      rw [List.mapM_cons, hb, hbs]
      rfl

theorem corrRowFrom_corrResultFrom (env : NumEnv) (method : Method)
    (n : ℕ) (corr pValue : ℚ) (lag : ℕ) :
    corrRowFrom lag (corrResultFrom env method n corr pValue) =
      Except.ok [LagEntry.corr
        { lag := lag, correlation := some corr, p_value := some pValue,
          n_obs := n }] := by
  unfold corrRowFrom corrResultFrom
  by_cases h : method = Method.pearson ∧ 3 < n
  · rw [if_pos h]
  · rw [if_neg h]

theorem corrResultFrom_eta (env : NumEnv) (method : Method) (n : ℕ)
    (corr pValue : ℚ) :
    corrResultFrom env method n corr pValue =
      { correlation := some corr, p_value := some pValue,
        ci_lower := (corrResultFrom env method n corr pValue).ci_lower,
        ci_upper := (corrResultFrom env method n corr pValue).ci_upper,
        n_observations := some n } := by
  unfold corrResultFrom
  split <;> rfl

theorem lagStep_correlation_ok (env : NumEnv) (x y : List (Option ℚ))
    (lag : ℕ)
    (h : 3 ≤ (cleanPairs (lagSlice x y lag).1 (lagSlice x y lag).2).length) :
    lagStep env x y LagMethod.correlation lag =
      Except.ok [LagEntry.corr
        { lag := lag,
          correlation := some ((env.pearsonr
            ((cleanPairs (lagSlice x y lag).1 (lagSlice x y lag).2).map Prod.fst)
            ((cleanPairs (lagSlice x y lag).1 (lagSlice x y lag).2).map Prod.snd)).1),
          p_value := some ((env.pearsonr
            ((cleanPairs (lagSlice x y lag).1 (lagSlice x y lag).2).map Prod.fst)
            ((cleanPairs (lagSlice x y lag).1 (lagSlice x y lag).2).map Prod.snd)).2),
          n_obs := (cleanPairs (lagSlice x y lag).1 (lagSlice x y lag).2).length }] := by
  show Except.bind (calculate_correlation env (lagSlice x y lag).1
      (lagSlice x y lag).2 Method.pearson) (corrRowFrom lag) = _
  rw [calculate_correlation_ok _ _ _ h]
  rw [show ∀ (r : CorrResult) (f : CorrResult → Except String (List LagEntry)),
        Except.bind (Except.ok r) f = f r from fun _ _ => rfl]
  exact corrRowFrom_corrResultFrom _ _ _ _ _ _

/-- Claim C3 counterexample: on the pair x = y = [1, 2] (two valid points)
the lag sweep raises a KeyError at lag 0 and returns no entry at all, while
the plain correlation on the same pair returns its NaN marker result; hence
the lag 0 entry of the sweep does not equal the plain correlation result. -/
theorem C3_counterexample :
    compute_lag_analysis zeroEnv [some 1, some 2] [some 1, some 2] 10
        LagMethod.correlation = Except.error "KeyError: n_observations" ∧
      calculate_correlation zeroEnv [some 1, some 2] [some 1, some 2]
          Method.pearson =
        Except.ok { correlation := none, p_value := none, ci_lower := none,
                    ci_upper := none, n_observations := none } := by
  exact ⟨rfl, rfl⟩

/-- Claim C3 (amended): for equal-length series such that every lag of the
sweep keeps at least 3 paired valid points, the sweep succeeds and its entry
at lag 0 carries exactly the coefficient, p-value and sample count of the
plain correlation on the unshifted, NaN-dropped pair. (With fewer than 3
paired valid points at some lag the sweep instead raises a KeyError, because
the insufficient-sample correlation dict omits the sample-count key.) -/
theorem C3_lag_zero (env : NumEnv) (x y : List (Option ℚ)) (maxLag : ℕ)
    (hxy : x.length = y.length)
    (hall : ∀ l, l ≤ maxLag →
      3 ≤ (cleanPairs (lagSlice x y l).1 (lagSlice x y l).2).length) :
    ∃ rows c p n ciL ciU,
      compute_lag_analysis env x y maxLag LagMethod.correlation =
          Except.ok rows ∧
      calculate_correlation env x y Method.pearson =
        Except.ok { correlation := some c, p_value := some p,
                    ci_lower := ciL, ci_upper := ciU,
                    n_observations := some n } ∧
      rows.head? = some (LagEntry.corr
        { lag := 0, correlation := some c, p_value := some p, n_obs := n }) := by
  have h0 : 3 ≤ (cleanPairs x y).length := by
    have := hall 0 (Nat.zero_le _)
    simpa [lagSlice] using this
  set c := (env.pearsonr ((cleanPairs x y).map Prod.fst)
    ((cleanPairs x y).map Prod.snd)).1 with hc
  set p := (env.pearsonr ((cleanPairs x y).map Prod.fst)
    ((cleanPairs x y).map Prod.snd)).2 with hp
  have hcalc : calculate_correlation env x y Method.pearson =
      Except.ok (corrResultFrom env Method.pearson (cleanPairs x y).length c p) :=
    calculate_correlation_ok env x y h0
  have hstep0 : lagStep env x y LagMethod.correlation 0 =
      Except.ok [LagEntry.corr
        { lag := 0, correlation := some c, p_value := some p,
          n_obs := (cleanPairs x y).length }] := by
    have := lagStep_correlation_ok env x y 0 (by simpa [lagSlice] using h0)
    simpa [lagSlice, hc, hp] using this
  have hrest : ∀ a ∈ (List.range maxLag).map Nat.succ,
      ∃ b, lagStep env x y LagMethod.correlation a = Except.ok b := by
    intro a ha
    obtain ⟨l, hl, rfl⟩ := List.mem_map.mp ha
    have hla : Nat.succ l ≤ maxLag := List.mem_range.mp hl
    exact ⟨_, lagStep_correlation_ok env x y (Nat.succ l) (hall _ hla)⟩
  obtain ⟨bs, hbs⟩ := mapM_ok_of_forall (lagStep env x y LagMethod.correlation)
    ((List.range maxLag).map Nat.succ) hrest
  refine ⟨([LagEntry.corr
      { lag := 0, correlation := some c, p_value := some p,
        n_obs := (cleanPairs x y).length }] :: bs).flatten, c, p,
    (cleanPairs x y).length,
    (corrResultFrom env Method.pearson (cleanPairs x y).length c p).ci_lower,
    (corrResultFrom env Method.pearson (cleanPairs x y).length c p).ci_upper,
    ?_, ?_, ?_⟩
  · unfold compute_lag_analysis
    rw [List.range_succ_eq_map, List.mapM_cons, hstep0, hbs]
    rfl
  · rw [hcalc, corrResultFrom_eta]
  · rfl

/-- Witness for the amended C3 at x = y = [1, 2, 3] with max lag 0. -/
theorem C3_witness :
    (([some (1 : ℚ), some 2, some 3] : List (Option ℚ)).length =
        ([some (1 : ℚ), some 2, some 3] : List (Option ℚ)).length) ∧
      (∀ l, l ≤ 0 →
        3 ≤ (cleanPairs
          (lagSlice [some (1 : ℚ), some 2, some 3]
            [some (1 : ℚ), some 2, some 3] l).1
          (lagSlice [some (1 : ℚ), some 2, some 3]
            [some (1 : ℚ), some 2, some 3] l).2).length) ∧
      (∃ rows c p n ciL ciU,
        compute_lag_analysis zeroEnv [some 1, some 2, some 3]
            [some 1, some 2, some 3] 0 LagMethod.correlation =
          Except.ok rows ∧
        calculate_correlation zeroEnv [some 1, some 2, some 3]
            [some 1, some 2, some 3] Method.pearson =
          Except.ok { correlation := some c, p_value := some p,
                      ci_lower := ciL, ci_upper := ciU,
                      n_observations := some n } ∧
        rows.head? = some (LagEntry.corr
          { lag := 0, correlation := some c, p_value := some p,
            n_obs := n })) :=
  ⟨rfl, by decide, C3_lag_zero zeroEnv _ _ 0 rfl (by decide)⟩

/-- Claim C8: for a supported method and at least 3 paired valid points the
correlation result carries a 95 percent confidence interval equal to
(tanh(z - 1.96 se), tanh(z + 1.96 se)) with z = atanh(r) and
se = 1 / sqrt(n - 3) exactly when the method is pearson and n > 3; for n = 3
or a non-pearson method both interval bounds are the NaN marker. -/
theorem C8_fisher_ci (env : NumEnv) (x y : List (Option ℚ)) (method : Method)
    (hxy : x.length = y.length)
    (hm : method = Method.pearson ∨ method = Method.spearman ∨
      method = Method.kendall)
    (h3 : 3 ≤ (cleanPairs x y).length) :
    ∃ c p : ℚ,
      calculate_correlation env x y method =
        Except.ok
          { correlation := some c, p_value := some p,
            ci_lower :=
              if method = Method.pearson ∧ 3 < (cleanPairs x y).length then
                some (env.tanh (env.arctanh c -
                  196 / 100 * (1 / env.sqrt (((cleanPairs x y).length : ℚ) - 3))))
              else none,
            ci_upper :=
              if method = Method.pearson ∧ 3 < (cleanPairs x y).length then
                some (env.tanh (env.arctanh c +
                  196 / 100 * (1 / env.sqrt (((cleanPairs x y).length : ℚ) - 3))))
              else none,
            n_observations := some (cleanPairs x y).length } := by
  rcases hm with rfl | rfl | rfl
  · refine ⟨(env.pearsonr ((cleanPairs x y).map Prod.fst)
      ((cleanPairs x y).map Prod.snd)).1,
      (env.pearsonr ((cleanPairs x y).map Prod.fst)
      ((cleanPairs x y).map Prod.snd)).2, ?_⟩
    rw [calculate_correlation_ok env x y h3]
    unfold corrResultFrom
    by_cases hgt : 3 < (cleanPairs x y).length
    · simp only [eq_self_iff_true, true_and, if_pos hgt]
    · simp only [eq_self_iff_true, true_and, if_neg hgt]
  · refine ⟨(env.spearmanr ((cleanPairs x y).map Prod.fst)
      ((cleanPairs x y).map Prod.snd)).1,
      (env.spearmanr ((cleanPairs x y).map Prod.fst)
      ((cleanPairs x y).map Prod.snd)).2, ?_⟩
    rw [calculate_correlation_spearman_ok env x y h3]
    unfold corrResultFrom
    have hne : ¬ (Method.spearman = Method.pearson ∧
        3 < (cleanPairs x y).length) := by
      rintro ⟨h, -⟩
      exact Method.noConfusion h
    simp only [if_neg hne]
  · refine ⟨(env.kendalltau ((cleanPairs x y).map Prod.fst)
      ((cleanPairs x y).map Prod.snd)).1,
      (env.kendalltau ((cleanPairs x y).map Prod.fst)
      ((cleanPairs x y).map Prod.snd)).2, ?_⟩
    rw [calculate_correlation_kendall_ok env x y h3]
    unfold corrResultFrom
    have hne : ¬ (Method.kendall = Method.pearson ∧
        3 < (cleanPairs x y).length) := by
      rintro ⟨h, -⟩
      exact Method.noConfusion h
    simp only [if_neg hne]

/-- Witness for C8 at four valid pairs with the pearson method. -/
theorem C8_witness :
    (([some (1 : ℚ), some 2, some 3, some 4] : List (Option ℚ)).length =
        ([some (1 : ℚ), some 2, some 3, some 4] : List (Option ℚ)).length) ∧
      (Method.pearson = Method.pearson ∨ Method.pearson = Method.spearman ∨
        Method.pearson = Method.kendall) ∧
      3 ≤ (cleanPairs [some (1 : ℚ), some 2, some 3, some 4]
        [some (1 : ℚ), some 2, some 3, some 4]).length ∧
      (∃ c p : ℚ,
        calculate_correlation zeroEnv [some 1, some 2, some 3, some 4]
            [some 1, some 2, some 3, some 4] Method.pearson =
          Except.ok
            { correlation := some c, p_value := some p,
              ci_lower :=
                if Method.pearson = Method.pearson ∧
                    3 < (cleanPairs [some (1 : ℚ), some 2, some 3, some 4]
                      [some (1 : ℚ), some 2, some 3, some 4]).length then
                  some (zeroEnv.tanh (zeroEnv.arctanh c -
                    196 / 100 * (1 / zeroEnv.sqrt
                      (((cleanPairs [some (1 : ℚ), some 2, some 3, some 4]
                        [some (1 : ℚ), some 2, some 3, some 4]).length : ℚ) - 3))))
                else none,
              ci_upper :=
                if Method.pearson = Method.pearson ∧
                    3 < (cleanPairs [some (1 : ℚ), some 2, some 3, some 4]
                      [some (1 : ℚ), some 2, some 3, some 4]).length then
                  some (zeroEnv.tanh (zeroEnv.arctanh c +
                    196 / 100 * (1 / zeroEnv.sqrt
                      (((cleanPairs [some (1 : ℚ), some 2, some 3, some 4]
                        [some (1 : ℚ), some 2, some 3, some 4]).length : ℚ) - 3))))
                else none,
              n_observations := some (cleanPairs
                [some (1 : ℚ), some 2, some 3, some 4]
                [some (1 : ℚ), some 2, some 3, some 4]).length }) :=
  ⟨rfl, Or.inl rfl, by decide,
    C8_fisher_ci zeroEnv _ _ Method.pearson rfl (Or.inl rfl) (by decide)⟩

theorem maskAt_sound (gs : List GlacierPoly) (pt : ℚ × ℚ) (i : ℕ)
    (h : maskAt gs pt = some i) :
    i < gs.length ∧ (gs.getD i default).contains pt = true := by
  have hmem : i ∈ containingIdx gs pt := List.mem_of_mem_getLast? h
  have := List.mem_filter.mp hmem
  exact ⟨List.mem_range.mp this.1, this.2⟩

theorem maskAt_none (gs : List GlacierPoly) (pt : ℚ × ℚ)
    (h : ∀ g ∈ gs, g.contains pt = false) : maskAt gs pt = none := by
  have hnil : containingIdx gs pt = [] := by
    refine List.filter_eq_nil_iff.mpr ?_
    intro i hi
    have hlt : i < gs.length := List.mem_range.mp hi
    have hmem : gs.getD i default ∈ gs := by
      rw [List.getD_eq_getElem?_getD, List.getElem?_eq_getElem hlt]
      exact List.getElem_mem _
    rw [h _ hmem]
    simp
  rw [maskAt, hnil]
  rfl

theorem mask_entry_eq (gs : List GlacierPoly) (lons lats : List ℚ)
    (r c : ℕ) (hr : r < lats.length) (hc : c < lons.length) :
    ((create_glacier_regions_mask gs lons lats).getD r []).getD c none =
      maskAt gs (lons.getD c 0, lats.getD r 0) := by
  unfold create_glacier_regions_mask
  simp only [List.getD_eq_getElem?_getD, List.getElem?_map,
    List.getElem?_eq_getElem hr, List.getElem?_eq_getElem hc,
    Option.map_some', Option.getD_some]

/-- Claim C1: every cell of the mask built over a grid holds at most one
glacier number — when it holds number i then polygon i indeed contains the
cell point, and a cell contained in no registered polygon is unassigned. -/
theorem C1_mask_invariant (gs : List GlacierPoly) (lons lats : List ℚ)
    (r c : ℕ) (hr : r < lats.length) (hc : c < lons.length) :
    (∀ i : ℕ,
        ((create_glacier_regions_mask gs lons lats).getD r []).getD c none =
          some i →
        i < gs.length ∧
          (gs.getD i default).contains (lons.getD c 0, lats.getD r 0) = true) ∧
      ((∀ g ∈ gs, g.contains (lons.getD c 0, lats.getD r 0) = false) →
        ((create_glacier_regions_mask gs lons lats).getD r []).getD c none =
          none) := by
  constructor
  · intro i hi
    rw [mask_entry_eq gs lons lats r c hr hc] at hi
    exact maskAt_sound gs _ i hi
  · intro hnone
    rw [mask_entry_eq gs lons lats r c hr hc]
    exact maskAt_none gs _ hnone

/-- Witness for C1 on a one-cell grid: an everywhere-containing polygon gives
an assigned cell with a sound label, and a nowhere-containing polygon leaves
the cell unassigned. -/
theorem C1_witness :
    (0 < ([(52 : ℚ)] : List ℚ).length ∧ 0 < ([(-117 : ℚ)] : List ℚ).length) ∧
      (0 < ([⟨"RGI60-02.11738", fun _ => true⟩] : List GlacierPoly).length ∧
        (([⟨"RGI60-02.11738", fun _ => true⟩] : List GlacierPoly).getD 0
            default).contains
          (([(-117 : ℚ)] : List ℚ).getD 0 0, ([(52 : ℚ)] : List ℚ).getD 0 0) =
          true) ∧
      ((create_glacier_regions_mask
          ([⟨"RGI60-02.11738", fun _ => false⟩] : List GlacierPoly)
          [(-117 : ℚ)] [(52 : ℚ)]).getD 0 []).getD 0 none = none :=
  ⟨⟨by decide, by decide⟩,
    (C1_mask_invariant [⟨"RGI60-02.11738", fun _ => true⟩] [(-117 : ℚ)]
        [(52 : ℚ)] 0 0 (by decide) (by decide)).1 0 rfl,
    (C1_mask_invariant [⟨"RGI60-02.11738", fun _ => false⟩] [(-117 : ℚ)]
        [(52 : ℚ)] 0 0 (by decide) (by decide)).2
      (by intro g hg; simp only [List.mem_singleton] at hg; rw [hg])⟩

/-- Claim C2 counterexample: a glacier with zero assigned cells (a one-cell
grid whose mask cell is unassigned) is reported with the NaN marker for the
mean but with the plain value 0 — not a missing value — for the sum. -/
theorem C2_counterexample :
    extractSlice [[none]] [("BC_dep", [[5]])] 1 ["BC_dep"] 0 =
        [(0, { time := 0, var := "BC_dep", mean := none,
               sum := some 0 })] ∧
      depSum (cellsOfGlacier [[none]] [[(5 : ℚ)]] 0) = some 0 ∧
      (some (0 : ℚ) ≠ none) := by
  refine ⟨?_, rfl, by simp⟩
  rfl

theorem extractSlice_mem (mask : List (List (Option ℕ))) (ds : Slice)
    (nGlaciers : ℕ) (vars : List String) (t : ℤ) (i : ℕ) (v : String)
    (grid : List (List ℚ)) (hv : lookupVar ds v = some grid)
    (hmem : v ∈ vars) (hi : i < nGlaciers) :
    (i, ({ time := t, var := v,
           mean := depMean (cellsOfGlacier mask grid i),
           sum := depSum (cellsOfGlacier mask grid i) } : DepRecord)) ∈
      extractSlice mask ds nGlaciers vars t := by
  unfold extractSlice
  refine List.mem_flatMap.mpr ⟨v, hmem, ?_⟩
  rw [hv]
  exact List.mem_map.mpr ⟨i, List.mem_range.mpr hi, rfl⟩

/-- Claim C2 (amended): for every variable present in the slice, a glacier
with zero assigned cells is reported with the NaN marker for the mean but
with the value 0 for the sum. -/
theorem C2_empty_coverage (mask : List (List (Option ℕ))) (ds : Slice)
    (nGlaciers : ℕ) (vars : List String) (t : ℤ) (i : ℕ) (v : String)
    (grid : List (List ℚ)) (hv : lookupVar ds v = some grid)
    (hmem : v ∈ vars) (hi : i < nGlaciers)
    (hempty : cellsOfGlacier mask grid i = []) :
    (i, ({ time := t, var := v, mean := none, sum := some 0 } : DepRecord)) ∈
      extractSlice mask ds nGlaciers vars t := by
  have := extractSlice_mem mask ds nGlaciers vars t i v grid hv hmem hi
  rw [hempty] at this
  simpa [depMean, depSum] using this

/-- Witness for the amended C2 on a one-cell grid with an unassigned cell. -/
theorem C2_witness :
    lookupVar [("BC_dep", [[(5 : ℚ)]])] "BC_dep" = some [[(5 : ℚ)]] ∧
      "BC_dep" ∈ ["BC_dep"] ∧ 0 < 1 ∧
      cellsOfGlacier [[none]] [[(5 : ℚ)]] 0 = [] ∧
      (0, ({ time := 0, var := "BC_dep", mean := none,
             sum := some 0 } : DepRecord)) ∈
        extractSlice [[none]] [("BC_dep", [[5]])] 1 ["BC_dep"] 0 :=
  ⟨rfl, by decide, by decide, rfl,
    C2_empty_coverage [[none]] [("BC_dep", [[5]])] 1 ["BC_dep"] 0 0 "BC_dep"
      [[(5 : ℚ)]] rfl (by decide) (by decide) rfl⟩

theorem filter_flatMap {α β : Type} (l : List α) (f : α → List β)
    (p : β → Bool) :
    (l.flatMap f).filter p = l.flatMap fun a => (f a).filter p := by
  induction l with
  | nil => rfl
  | cons a l ih => simp [List.flatMap_cons, List.filter_append, ih]

theorem extractSlice_time (mask : List (List (Option ℕ))) (ds : Slice)
    (nGlaciers : ℕ) (vars : List String) (t : ℤ) (pr : ℕ × DepRecord)
    (h : pr ∈ extractSlice mask ds nGlaciers vars t) : pr.2.time = t := by
  unfold extractSlice at h
  obtain ⟨v, -, hv⟩ := List.mem_flatMap.mp h
  rcases hlook : lookupVar ds v with - | grid
  · rw [hlook] at hv
    exact absurd hv (List.not_mem_nil pr)
  · rw [hlook] at hv
    obtain ⟨i, -, rfl⟩ := List.mem_map.mp hv
    rfl

theorem sliceRecords_time (fs : ℤ → Option Slice)
    (mask : List (List (Option ℕ))) (nGlaciers : ℕ) (vars : List String)
    (t : ℤ) (pr : ℕ × DepRecord)
    (h : pr ∈ sliceRecords fs mask nGlaciers vars t) : pr.2.time = t := by
  unfold sliceRecords at h
  rcases hfs : fs t with - | ds
  · rw [hfs] at h
    exact absurd h (List.not_mem_nil pr)
  · rw [hfs] at h
    exact extractSlice_time mask ds nGlaciers vars t pr h

/-- Claim C6: removing the source slice of one timestamp t0 (its load raises
`FileNotFoundError`) never aborts the extraction loop; the run produces
exactly the records it would have produced with the slice present, minus
those stamped t0 — every other timestamp still yields its observations. -/
theorem C6_missing_slice (fs : ℤ → Option Slice)
    (mask : List (List (Option ℕ))) (nGlaciers : ℕ) (vars : List String)
    (s e t0 : ℤ) :
    extract_deposition_timeseries (Function.update fs t0 none) mask nGlaciers
        vars s e =
      (extract_deposition_timeseries fs mask nGlaciers vars s e).filter
        fun pr => decide (pr.2.time ≠ t0) := by
  unfold extract_deposition_timeseries
  rw [filter_flatMap]
  have hfun : ∀ t : ℤ,
      sliceRecords (Function.update fs t0 none) mask nGlaciers vars t =
        (sliceRecords fs mask nGlaciers vars t).filter
          fun pr => decide (pr.2.time ≠ t0) := by
    intro t
    by_cases ht : t = t0
    · subst ht
      have hupd : sliceRecords (Function.update fs t none) mask nGlaciers
          vars t = [] := by
        unfold sliceRecords
        rw [Function.update_same]
      rw [hupd]
      symm
      refine List.filter_eq_nil_iff.mpr ?_
      intro pr hpr
      have := sliceRecords_time fs mask nGlaciers vars t pr hpr
      simp [this]
    · have hupd : Function.update fs t0 (none : Option Slice) t = fs t :=
        Function.update_noteq ht _ _
      have hleft : sliceRecords (Function.update fs t0 none) mask nGlaciers
          vars t = sliceRecords fs mask nGlaciers vars t := by
        unfold sliceRecords
        rw [hupd]
      rw [hleft]
      symm
      refine List.filter_eq_self.mpr ?_
      intro pr hpr
      have := sliceRecords_time fs mask nGlaciers vars t pr hpr
      simp [this, ht]
  exact List.flatMap_congr fun t _ => hfun t

theorem selectVariables_ok (ds : Slice) (vars : List String)
    (h : ∀ v ∈ vars, (lookupVar ds v).isSome = true) :
    selectVariables ds vars = Except.ok (selectedSlice ds vars) := by
  unfold selectVariables selectedSlice
  by_cases he : vars.isEmpty = true
  · rw [if_pos he, if_pos he]
  · rw [if_neg he, if_neg he, if_pos (List.all_eq_true.mpr h)]

theorem foldlM_loadStep_ok (fs : ℤ → Option Slice) (vars : List String)
    (l : List ℤ) (acc : List (ℤ × Slice))
    (h : ∀ t ∈ l, ∀ ds, fs t = some ds →
      ∀ v ∈ vars, (lookupVar ds v).isSome = true) :
    l.foldlM (loadStep fs vars) acc =
      Except.ok (acc ++ l.filterMap fun t =>
        (fs t).map fun ds => (t, selectedSlice ds vars)) := by
  induction l generalizing acc with
  | nil =>
      simp only [List.foldlM_nil, List.filterMap_nil, List.append_nil]
      rfl
  | cons t l ih =>
      rw [List.foldlM_cons]
      rcases hfs : fs t with - | ds
      · have hstep : loadStep fs vars acc t = Except.ok acc := by
          unfold loadStep
          rw [hfs]
        rw [hstep,
          show ∀ (a : List (ℤ × Slice))
              (f : List (ℤ × Slice) → Except String (List (ℤ × Slice))),
            (Except.ok a >>= f) = f a from fun _ _ => rfl,
          ih acc fun u hu => h u (List.mem_cons_of_mem _ hu)]
        simp [List.filterMap_cons, hfs]
      · have hsel := selectVariables_ok ds vars
          (h t (List.mem_cons_self t l) ds hfs)
        have hstep : loadStep fs vars acc t =
            Except.ok (acc ++ [(t, selectedSlice ds vars)]) := by
          unfold loadStep
          rw [hfs]
          show (match selectVariables ds vars with
            | Except.error err => Except.error err
            | Except.ok d => Except.ok (acc ++ [(t, d)])) =
            Except.ok (acc ++ [(t, selectedSlice ds vars)])
          rw [hsel]
        rw [hstep,
          show ∀ (a : List (ℤ × Slice))
              (f : List (ℤ × Slice) → Except String (List (ℤ × Slice))),
            (Except.ok a >>= f) = f a from fun _ _ => rfl,
          ih _ fun u hu => h u (List.mem_cons_of_mem _ hu)]
        simp [List.filterMap_cons, hfs]

theorem load_raqdps_data_eval
    (concat : List (ℤ × Slice) → Except String (List (ℤ × Slice)))
    (fs : ℤ → Option Slice) (vars : List String) (s e : ℤ)
    (L : List (ℤ × Slice))
    (hfold : (hoursIn s e).foldlM (loadStep fs vars) [] = Except.ok L) :
    load_raqdps_data concat fs vars s e =
      if L.isEmpty then
        Except.error "Aucune donnée trouvée pour la période spécifiée"
      else concat L := by
  unfold load_raqdps_data
  rw [hfold]
  rfl

/-- Claim C10 counterexample: with the default variable list, a period whose
single hourly file exists but lacks the requested BC_dep variable raises a
`KeyError` from `ds = ds[variables]` — the call does not return normally even
though a file exists in the period, refuting the claimed equivalence. -/
theorem C10_counterexample :
    ((hoursIn 0 0).any fun t =>
        ((fun _ : ℤ => some pm10OnlySlice) t).isSome) = true ∧
      load_raqdps_data Except.ok (fun _ => some pm10OnlySlice)
          ["BC_dep", "PM2.5_dep", "PM10_dep"] 0 0 =
        Except.error "KeyError: variable absente du jeu de données" :=
  ⟨rfl, rfl⟩

/-- Claim C10 (amended): with no existing hourly file in the period,
`load_raqdps_data` raises `ValueError` rather than returning an empty
dataset. The existence of a file alone does not guarantee a normal return:
when at least one hourly file exists and every existing file of the period
carries all requested variables, the call returns the result of the
`xr.concat` of the collected selected datasets, while an existing file
missing a requested variable raises `KeyError` instead (counterexample). -/
theorem C10_load_behaviour
    (concat : List (ℤ × Slice) → Except String (List (ℤ × Slice)))
    (fs : ℤ → Option Slice) (vars : List String) (s e : ℤ) :
    ((∀ t ∈ hoursIn s e, fs t = none) →
      load_raqdps_data concat fs vars s e =
        Except.error "Aucune donnée trouvée pour la période spécifiée") ∧
      ((∃ t ∈ hoursIn s e, (fs t).isSome = true) →
        (∀ t ∈ hoursIn s e, ∀ ds, fs t = some ds →
          ∀ v ∈ vars, (lookupVar ds v).isSome = true) →
        load_raqdps_data concat fs vars s e =
          concat ((hoursIn s e).filterMap fun t =>
            (fs t).map fun ds => (t, selectedSlice ds vars))) := by
  constructor
  · intro hall
    have h0 : ∀ t ∈ hoursIn s e, ∀ ds, fs t = some ds →
        ∀ v ∈ vars, (lookupVar ds v).isSome = true := by
      intro t ht ds hds
      rw [hall t ht] at hds
      exact absurd hds (by simp)
    have hfold := foldlM_loadStep_ok fs vars (hoursIn s e) [] h0
    have hnil : ((hoursIn s e).filterMap fun t =>
        (fs t).map fun ds => (t, selectedSlice ds vars)) = [] := by
      refine List.filterMap_eq_nil_iff.mpr ?_
      intro t ht
      rw [hall t ht]
      rfl
    rw [hnil] at hfold
    rw [load_raqdps_data_eval concat fs vars s e _ hfold]
    rfl
  · rintro ⟨t0, ht0, hsome⟩ hall
    have hfold := foldlM_loadStep_ok fs vars (hoursIn s e) [] hall
    rw [List.nil_append] at hfold
    have hmem : ∃ pr, pr ∈ ((hoursIn s e).filterMap fun t =>
        (fs t).map fun ds => (t, selectedSlice ds vars)) := by
      rcases hfs : fs t0 with - | ds
      · rw [hfs] at hsome
        exact absurd hsome (by simp)
      · exact ⟨(t0, selectedSlice ds vars),
          List.mem_filterMap.mpr ⟨t0, ht0, by rw [hfs]; rfl⟩⟩
    obtain ⟨pr, hpr⟩ := hmem
    have hne : ((hoursIn s e).filterMap fun t =>
        (fs t).map fun ds => (t, selectedSlice ds vars)).isEmpty =
          false :=
      List.isEmpty_eq_false_iff_exists_mem.mpr ⟨pr, hpr⟩
    rw [load_raqdps_data_eval concat fs vars s e _ hfold, hne]
    rfl

/-- Witness for the amended C10: an empty period raises the `ValueError`, and
a period with one complete file returns the concatenation of its selected
dataset. -/
theorem C10_witness :
    (∀ t ∈ hoursIn 0 0, (fun _ : ℤ => (none : Option Slice)) t = none) ∧
      load_raqdps_data Except.ok (fun _ => none)
          ["BC_dep", "PM2.5_dep", "PM10_dep"] 0 0 =
        Except.error "Aucune donnée trouvée pour la période spécifiée" ∧
      (∃ t ∈ hoursIn 0 0,
        ((fun _ : ℤ => some completeSlice) t).isSome = true) ∧
      (∀ t ∈ hoursIn 0 0, ∀ ds,
        (fun _ : ℤ => some completeSlice) t = some ds →
        ∀ v ∈ ["BC_dep", "PM2.5_dep", "PM10_dep"],
          (lookupVar ds v).isSome = true) ∧
      load_raqdps_data Except.ok (fun _ => some completeSlice)
          ["BC_dep", "PM2.5_dep", "PM10_dep"] 0 0 =
        Except.ok ((hoursIn 0 0).filterMap fun t =>
          ((fun _ : ℤ => some completeSlice) t).map fun ds =>
            (t, selectedSlice ds ["BC_dep", "PM2.5_dep", "PM10_dep"])) := by
  have hcomplete : ∀ t ∈ hoursIn 0 0, ∀ ds,
      (fun _ : ℤ => some completeSlice) t = some ds →
      ∀ v ∈ ["BC_dep", "PM2.5_dep", "PM10_dep"],
        (lookupVar ds v).isSome = true := by
    intro t ht ds hds v hv
    cases hds
    fin_cases hv <;> rfl
  refine ⟨fun _ _ => rfl,
    (C10_load_behaviour Except.ok (fun _ => none) _ 0 0).1 fun _ _ => rfl,
    ⟨0, by decide, rfl⟩, hcomplete,
    (C10_load_behaviour Except.ok (fun _ => some completeSlice) _ 0 0).2
      ⟨0, by decide, rfl⟩ hcomplete⟩

/-- Claim C9: `max_elevation = 0` is falsy, so the elevation criterion is
skipped entirely and the call behaves exactly like `max_elevation = None`. -/
theorem C9_zero_max_elevation (gs : List GlacierRow) (min_area : ℚ) :
    filter_glaciers_by_criteria gs min_area (some 0) =
      filter_glaciers_by_criteria gs min_area none := by
  unfold filter_glaciers_by_criteria
  have h0 : truthyOpt (some 0) = false := by
    simp [truthyOpt]
  rw [h0]
  rfl

theorem sum_filter_const (c : ℤ → Bool) (v : ℚ) (l : List ℕ) :
    ((((l.map fun k : ℕ => ((k : ℤ), v)).filter fun p => c p.1).map
      Prod.snd)).sum = ((l.filter fun k : ℕ => c (k : ℤ)).length : ℚ) * v := by
  induction l with
  | nil => simp
  | cons k l ih =>
      by_cases hk : c (k : ℤ) = true
      · simp [List.filter_cons, hk, ih]
        ring
      · simp [List.filter_cons, hk, ih]

theorem length_filter_le_range (a m : ℕ) :
    ((List.range m).filter fun k => decide (a ≤ k)).length = m - a := by
  induction m with
  | zero => simp
  | succ m ih =>
      rw [List.range_succ, List.filter_append, List.length_append, ih]
      by_cases ha : a ≤ m
      · have : ([m].filter fun k => decide (a ≤ k)) = [m] := by
          simp [List.filter_cons, ha]
        rw [this]
        simp only [List.length_singleton]
        omega
      · have : ([m].filter fun k => decide (a ≤ k)) = [] := by
          simp [List.filter_cons, ha]
        rw [this]
        simp only [List.length_nil]
        omega

/-- Claim C5: over a gap-free hourly series of constant value v, the rolling
24-hour wall-clock sum equals 24 v at the 24th observation (index 23) and at
every later observation. -/
theorem C5_rolling_24h (v : ℚ) (n i : ℕ) (h23 : 23 ≤ i) (hn : i < n) :
    (cumul24h (hourlyConst n v)).getD i 0 = 24 * v := by
  have hlen : (hourlyConst n v).length = n := by
    unfold hourlyConst
    rw [List.length_map, List.length_range]
  have hgetd : ((hourlyConst n v).getD i (0, 0)).1 = (i : ℤ) := by
    unfold hourlyConst
    rw [List.getD_eq_getElem?_getD, List.getElem?_map, List.getElem?_range hn]
    rfl
  have htake : (hourlyConst n v).take (i + 1) =
      (List.range (i + 1)).map fun k : ℕ => ((k : ℤ), v) := by
    unfold hourlyConst
    rw [← List.map_take, List.take_range, Nat.min_eq_left (by omega)]
  unfold cumul24h rollingWindowSum
  rw [hlen, List.getD_eq_getElem?_getD, List.getElem?_map,
    List.getElem?_range hn]
  simp only [Option.map_some', Option.getD_some]
  rw [hgetd, htake]
  have hsum := sum_filter_const (fun z => decide ((i : ℤ) - 24 < z)) v
    (List.range (i + 1))
  rw [hsum]
  have hcong : ((List.range (i + 1)).filter fun k : ℕ =>
        decide ((i : ℤ) - 24 < (k : ℤ))) =
      ((List.range (i + 1)).filter fun k : ℕ => decide (i - 23 ≤ k)) := by
    refine List.filter_congr ?_
    intro k hk
    refine decide_eq_decide.mpr ?_
    omega
  rw [hcong, length_filter_le_range]
  have h24 : i + 1 - (i - 23) = 24 := by omega
  rw [h24]
  norm_num

/-- Witness for C5 at the 24th observation of a 24-hour series. -/
theorem C5_witness :
    23 ≤ 23 ∧ 23 < 24 ∧
      (cumul24h (hourlyConst 24 1)).getD 23 0 = 24 * 1 :=
  ⟨by decide, by decide, C5_rolling_24h 1 24 23 (by decide) (by decide)⟩

/-- Claim C7 counterexample: on two glaciers with equal total deposition the
code ranking keeps the original row order (identifier 2 before identifier 1),
not the ascending identifier order the claim states. -/
theorem C7_counterexample :
    nlargestBCTotal 10 demoSummary =
        [{ RGIId := 2, BC_total := 5 }, { RGIId := 1, BC_total := 5 }] ∧
      specRanking demoSummary =
        [{ RGIId := 1, BC_total := 5 }, { RGIId := 2, BC_total := 5 }] ∧
      nlargestBCTotal 10 demoSummary ≠ specRanking demoSummary := by
  refine ⟨?_, ?_, ?_⟩
  · simp [nlargestBCTotal, demoSummary, List.mergeSort, List.merge]
  · simp [specRanking, demoSummary, List.mergeSort, List.merge]
  · simp [nlargestBCTotal, specRanking, demoSummary, List.mergeSort,
      List.merge]

/-- Claim C7 (amended): the ranking keeps the 10 rows of largest total
deposition in descending order of the total, and two rows with equal totals
appear in the order of their rows in the summary table (the stable sort keeps
the original relative order), not in ascending identifier order. -/
theorem C7_ranking (rows : List SummaryRow) :
    List.Pairwise (fun a b : SummaryRow => b.BC_total ≤ a.BC_total)
        (nlargestBCTotal 10 rows) ∧
      (∀ a b : SummaryRow, a.BC_total = b.BC_total →
        List.Sublist [a, b] rows →
        List.Sublist [a, b]
          (rows.mergeSort fun a b => decide (b.BC_total ≤ a.BC_total))) := by
  have htrans : ∀ a b c : SummaryRow,
      decide (b.BC_total ≤ a.BC_total) = true →
      decide (c.BC_total ≤ b.BC_total) = true →
      decide (c.BC_total ≤ a.BC_total) = true := by
    intro a b c hab hbc
    exact decide_eq_true
      (le_trans (of_decide_eq_true hbc) (of_decide_eq_true hab))
  have htotal : ∀ a b : SummaryRow,
      (decide (b.BC_total ≤ a.BC_total) ||
        decide (a.BC_total ≤ b.BC_total)) = true := by
    intro a b
    rcases le_total b.BC_total a.BC_total with h | h
    · simp [h]
    · simp [h]
  constructor
  · have hsorted := List.sorted_mergeSort htrans htotal rows
    have htake : List.Sublist (nlargestBCTotal 10 rows)
        (rows.mergeSort fun a b => decide (b.BC_total ≤ a.BC_total)) := by
      unfold nlargestBCTotal
      exact List.take_sublist _ _
    exact (hsorted.sublist htake).imp fun h => of_decide_eq_true h
  · intro a b hab hsub
    refine List.sublist_mergeSort htrans htotal ?_ hsub
    refine List.pairwise_cons.mpr ⟨?_, by simp⟩
    intro b' hb'
    rw [List.mem_singleton] at hb'
    subst hb'
    exact decide_eq_true (le_of_eq hab.symm)

/-- Witness for the amended C7 at the two-row tie. -/
theorem C7_witness :
    List.Pairwise (fun a b : SummaryRow => b.BC_total ≤ a.BC_total)
        (nlargestBCTotal 10 demoSummary) ∧
      (({ RGIId := 2, BC_total := 5 } : SummaryRow).BC_total =
          ({ RGIId := 1, BC_total := 5 } : SummaryRow).BC_total ∧
        List.Sublist
          [({ RGIId := 2, BC_total := 5 } : SummaryRow),
            { RGIId := 1, BC_total := 5 }] demoSummary) ∧
      List.Sublist
        [({ RGIId := 2, BC_total := 5 } : SummaryRow),
          { RGIId := 1, BC_total := 5 }]
        (demoSummary.mergeSort fun a b => decide (b.BC_total ≤ a.BC_total)) :=
  ⟨(C7_ranking demoSummary).1, ⟨rfl, List.Sublist.refl _⟩,
    (C7_ranking demoSummary).2 _ _ rfl (List.Sublist.refl _)⟩

end GlacierAlbedo
